import Mathlib

/-!
A shallow embedding of the evt-tracer core (lib/index.js): the Span data type,
its constructor and operations (startChild, injectHeaders, addTags, log), and
the Tracer facade (newSpan, joinSpan, clientRequest, serverRequest).

Modelling conventions:
* JavaScript objects used as string maps (tags, headers) are association lists
  with in-place overwrite on assignment (setKey).
* assert-plus assertion failures (thrown AssertionError) are modelled as none;
  operations that can fail return Option.
* undefined/null option fields are Option.none; JavaScript truthiness of a
  string-or-undefined value is strTruthy, and the idiom (x or-else d) is jsOr.
* uuid.v4() is modelled by passing the freshly generated identifier strings in
  explicitly (freshSpanId, freshTraceId); uuid.v4 always returns a well-formed
  UUID, which appears as an isUuid hypothesis where a theorem needs it.
* the bunyan logger is not modelled as data: the constructor only checks that
  it is an object (a Bool flag here), and logger.info(evt) is modelled by
  returning the emitted Event record alongside the updated Span.
-/

namespace EvtTracer

/-- JavaScript-object-as-map: association list with first-match lookup. -/
abbrev SMap := List (String × String)

/-- Lookup of a key in a JS object (undefined when absent). -/
def getKey : SMap → String → Option String
  | [], _ => none
  | (k, v) :: rest, key => if k = key then some v else getKey rest key

/-- Property assignment obj[k] = v: overwrite in place, append if absent. -/
def setKey : SMap → String → String → SMap
  | [], k, v => [(k, v)]
  | (k', v') :: rest, k, v =>
      if k' = k then (k, v) :: rest else (k', v') :: setKey rest k v

/-- The for-loop of addTags: assign each key of t into m in order. -/
def mergeTags (m : SMap) (t : SMap) : SMap :=
  t.foldl (fun acc kv => setKey acc kv.1 kv.2) m

/-- JavaScript truthiness of a string-or-undefined value
    (undefined and the empty string are falsy). -/
def strTruthy : Option String → Bool
  | none => false
  | some s => !(s == "")

/-- The JavaScript idiom (x or-else d) on a string-or-undefined value. -/
def jsOr (x : Option String) (d : String) : String :=
  if strTruthy x then x.getD "" else d

def isHexDigit (c : Char) : Bool :=
  (('0' ≤ c) && (c ≤ '9')) || (('a' ≤ c) && (c ≤ 'f')) || (('A' ≤ c) && (c ≤ 'F'))

/-- assert-plus UUID well-formedness: 8-4-4-4-12 hexadecimal groups. -/
def isUuid (s : String) : Bool :=
  let cs := s.data
  (cs.length == 36) &&
  (List.range 36).all (fun i =>
    if i == 8 || i == 13 || i == 18 || i == 23
    then cs.getD i ' ' == '-'
    else isHexDigit (cs.getD i ' '))

/-- assert.optionalUuid: passes when absent, otherwise requires a UUID. -/
def optionalUuidOk : Option String → Bool
  | none => true
  | some s => isUuid s

/-- assert.uuid on a possibly-undefined value: requires a present UUID. -/
def uuidOkReq : Option String → Bool
  | none => false
  | some s => isUuid s

/-- The opts argument of the Span constructor (and of newSpan/joinSpan).
    logger is true iff opts.logger is an object. -/
structure SpanOpts where
  logger : Bool
  operation : Option String
  parent_span_id : Option String
  span_id : Option String
  trace_id : Option String
deriving Repr, DecidableEq

structure Span where
  creator : Bool
  finished : Bool
  operation : String
  parent_span_id : String
  span_id : String
  trace_id : String
  tags : SMap
deriving Repr, DecidableEq

/-- One structured record emitted by logger.info({evt: evt}).
    endField is the evt.end property (none when the property is absent). -/
structure Event where
  kind : String
  operation : String
  parent_span_id : String
  span_id : String
  trace_id : String
  endField : Option Bool
  tags : SMap
deriving Repr, DecidableEq

/-- The Span(opts) constructor. freshSpanId and freshTraceId are the values
    uuid.v4() would return for the two possible minting sites. -/
def mkSpan (opts : SpanOpts) (freshSpanId freshTraceId : String) : Option Span :=
  if !opts.logger then none else
  match opts.operation with
  | none => none
  | some op =>
    if (opts.parent_span_id != some "0") && !(optionalUuidOk opts.parent_span_id)
      then none else
    if !(optionalUuidOk opts.span_id) then none else
    if !(optionalUuidOk opts.trace_id) then none else
    let creator := !(strTruthy opts.span_id)
    let parent := jsOr opts.parent_span_id "0"
    let sid := jsOr opts.span_id freshSpanId
    let tid := jsOr opts.trace_id freshTraceId
    if (opts.parent_span_id != some "0") && !(isUuid parent) then none else
    if !(isUuid sid) then none else
    if !(isUuid tid) then none else
    some { creator := creator, finished := false, operation := op,
           parent_span_id := parent, span_id := sid, trace_id := tid, tags := [] }

/-- Span.prototype.startChild: child keeps trace_id, parent becomes this
    span_id, no span_id supplied (so one is minted). The logger of a
    constructed Span is always an object, hence logger is true here. -/
def Span.startChild (self : Span) (operation : Option String)
    (freshSpanId freshTraceId : String) : Option Span :=
  match operation with
  | none => none
  | some op =>
      mkSpan { logger := true, operation := some op,
               parent_span_id := some self.span_id,
               span_id := none,
               trace_id := some self.trace_id } freshSpanId freshTraceId

/-- Span.prototype.injectHeaders: writes the three propagation headers. -/
def Span.injectHeaders (self : Span) (headersObj : SMap) : SMap :=
  setKey (setKey (setKey headersObj
      "x-span-id" self.span_id)
      "x-parent-span-id" self.parent_span_id)
      "x-request-id" self.trace_id

/-- Span.prototype.addTags: fails on a finished span, else merges keys. -/
def Span.addTags (self : Span) (tags : SMap) : Option Span :=
  if self.finished then none else
  some { self with tags := mergeTags self.tags tags }

/-- Span.prototype.log: fails on a finished span; builds the event record,
    sets evt.end only when ending as creator, marks finished when ending,
    drains the tags into the event, and emits it. -/
def Span.log (self : Span) (name : String) (endArg : Bool) :
    Option (Span × Event) :=
  if self.finished then none else
  let evtEnd : Option Bool := if endArg && self.creator then some true else none
  let fin := if endArg then true else self.finished
  some ({ self with finished := fin, tags := [] },
        { kind := name, operation := self.operation,
          parent_span_id := self.parent_span_id, span_id := self.span_id,
          trace_id := self.trace_id, endField := evtEnd, tags := self.tags })

/-- Tracer.newSpan: just the Span constructor. -/
def Tracer.newSpan (opts : SpanOpts) (freshSpanId freshTraceId : String) :
    Option Span :=
  mkSpan opts freshSpanId freshTraceId

/-- Tracer.joinSpan: requires parent_span_id to be '0' or a UUID and
    trace_id to be a present UUID, then constructs the Span. -/
def Tracer.joinSpan (opts : SpanOpts) (freshSpanId freshTraceId : String) :
    Option Span :=
  if (opts.parent_span_id != some "0") && !(uuidOkReq opts.parent_span_id)
    then none else
  if !(uuidOkReq opts.trace_id) then none else
  mkSpan opts freshSpanId freshTraceId

/-- The inbound request abstraction serverRequest consumes:
    req.header(name) is getKey headers name, req.getId() is reqId. -/
structure ServerReq where
  headers : SMap
  reqId : String
deriving Repr, DecidableEq

/-- Tracer.serverRequest: joins the span carried by the inbound headers
    (parent defaulting to the sentinel "0", trace_id from the request id),
    merges tags and logs a non-terminal server.request event.
    Returns the resulting span together with the emitted event. -/
def Tracer.serverRequest (loggerOk : Bool) (operation : Option String)
    (req : ServerReq) (tags : SMap) (freshSpanId freshTraceId : String) :
    Option (Span × Event) :=
  if !loggerOk then none else
  match operation with
  | none => none
  | some op =>
    match Tracer.joinSpan
        { logger := loggerOk, operation := some op,
          parent_span_id := some (jsOr (getKey req.headers "x-parent-span-id") "0"),
          span_id := getKey req.headers "x-span-id",
          trace_id := some req.reqId } freshSpanId freshTraceId with
    | none => none
    | some s =>
      match s.addTags tags with
      | none => none
      | some s2 =>
        match s2.log "server.request" false with
        | none => none
        | some (s3, e) => some (s3, e)

/-- Tracer.clientRequest: derive a child of the current span when there is
    one, otherwise mint a root span; inject headers, merge tags, log a
    non-terminal client.request event. Returns the span, the updated
    outbound header map, and the emitted event. -/
def Tracer.clientRequest (span : Option Span) (headers : SMap)
    (operation : Option String) (loggerOk : Bool) (tags : SMap)
    (freshSpanId freshTraceId : String) : Option (Span × SMap × Event) :=
  match operation with
  | none => none
  | some op =>
    let spanRes : Option Span :=
      match span with
      | some s => s.startChild (some op) freshSpanId freshTraceId
      | none => Tracer.newSpan
          { logger := loggerOk, operation := some op,
            parent_span_id := none, span_id := none, trace_id := none }
          freshSpanId freshTraceId
    match spanRes with
    | none => none
    | some s1 =>
      let h2 := s1.injectHeaders headers
      match s1.addTags tags with
      | none => none
      | some s2 =>
        match s2.log "client.request" false with
        | none => none
        | some (s3, e) => some (s3, h2, e)

/-- A Span that the constructor can actually have produced: its identifiers
    are well-formed, the parent being either the sentinel or a UUID. -/
def SpanWF (s : Span) : Prop :=
  isUuid s.span_id = true ∧ isUuid s.trace_id = true ∧
    (s.parent_span_id = "0" ∨ isUuid s.parent_span_id = true)

/-- joinSpan checks whether the supplied parent is acceptable:
    present and either the sentinel or a UUID. -/
def parentOk : Option String → Bool
  | none => false
  | some s => (s == "0") || isUuid s

/-! ### Helper lemmas -/

theorem isUuid_ne_empty {s : String} (h : isUuid s = true) : s ≠ "" := by
  intro he
  subst he
  exact absurd h (by decide)

theorem isUuid_ne_zero {s : String} (h : isUuid s = true) : s ≠ "0" := by
  intro he
  subst he
  exact absurd h (by decide)

theorem strTruthy_some_of_ne {s : String} (h : s ≠ "") :
    strTruthy (some s) = true := by
  simp [strTruthy, h]

theorem jsOr_none (d : String) : jsOr none d = d := rfl

theorem optionalUuidOk_none : optionalUuidOk none = true := rfl

theorem optionalUuidOk_some (s : String) :
    optionalUuidOk (some s) = isUuid s := rfl

theorem jsOr_some_of_ne {s : String} (h : s ≠ "") (d : String) :
    jsOr (some s) d = s := by
  simp [jsOr, strTruthy_some_of_ne h]

theorem getKey_setKey_self (m : SMap) (k v : String) :
    getKey (setKey m k v) k = some v := by
  induction m with
  | nil => simp [setKey, getKey]
  | cons kv rest ih =>
      obtain ⟨a, b⟩ := kv
      by_cases ha : a = k
      · subst ha
        simp [setKey, getKey]
      · simp [setKey, getKey, ha, ih]

theorem getKey_setKey_ne (m : SMap) {k k' : String} (v : String) (h : k ≠ k') :
    getKey (setKey m k' v) k = getKey m k := by
  induction m with
  | nil => simp [setKey, getKey, Ne.symm h]
  | cons kv rest ih =>
      obtain ⟨a, b⟩ := kv
      by_cases ha : a = k'
      · subst ha
        simp [setKey, getKey, Ne.symm h]
      · by_cases hak : a = k
        · simp [setKey, getKey, ha, hak, h]
        · simp [setKey, getKey, ha, hak, ih]

/-- joinSpan on a well-formed join request: parent present ('0' or UUID),
    trace id a UUID, span id absent or a UUID, and the effective span id
    (supplied, or otherwise the fresh one) a UUID. Computes the result. -/
theorem joinSpan_success (op p : String) (sid : Option String) (tid f g : String)
    (hp : p = "0" ∨ isUuid p = true) (hsid : optionalUuidOk sid = true)
    (hsidU : isUuid (jsOr sid f) = true) (ht : isUuid tid = true) :
    Tracer.joinSpan
        { logger := true, operation := some op, parent_span_id := some p,
          span_id := sid, trace_id := some tid } f g
      = some { creator := !(strTruthy sid), finished := false, operation := op,
               parent_span_id := p, span_id := jsOr sid f, trace_id := tid,
               tags := [] } := by
  have htne : tid ≠ "" := isUuid_ne_empty ht
  have h0 : ("0" : String) ≠ "" := by decide
  rcases hp with hp | hp
  · subst hp
    simp [Tracer.joinSpan, mkSpan, uuidOkReq, ht, hsid, hsidU,
      optionalUuidOk_some, jsOr_some_of_ne htne, jsOr_some_of_ne h0]
  · have hpz : p ≠ "0" := isUuid_ne_zero hp
    have hpne : p ≠ "" := isUuid_ne_empty hp
    simp [Tracer.joinSpan, mkSpan, uuidOkReq, ht, hsid, hsidU,
      hp, optionalUuidOk_some, jsOr_some_of_ne htne, jsOr_some_of_ne hpne]

theorem uuidOkReq_none : uuidOkReq none = false := rfl

theorem uuidOkReq_some (s : String) : uuidOkReq (some s) = isUuid s := rfl

theorem parentOk_none : parentOk none = false := rfl

theorem parentOk_some (s : String) :
    parentOk (some s) = ((s == "0") || isUuid s) := rfl

theorem bne_none_some_str (a : String) :
    ((none : Option String) != some a) = true := rfl

theorem bne_some_some_str (a b : String) :
    ((some a : Option String) != some b) = (a != b) := rfl

/-- Everything the Span constructor guarantees about a Span it returns. -/
theorem mkSpan_some_inv {opts : SpanOpts} {f g : String} {s : Span}
    (h : mkSpan opts f g = some s) :
    opts.logger = true ∧
    opts.operation = some s.operation ∧
    s.creator = !(strTruthy opts.span_id) ∧
    s.finished = false ∧
    s.parent_span_id = jsOr opts.parent_span_id "0" ∧
    s.span_id = jsOr opts.span_id f ∧
    s.trace_id = jsOr opts.trace_id g ∧
    s.tags = [] ∧
    optionalUuidOk opts.span_id = true ∧
    optionalUuidOk opts.trace_id = true ∧
    isUuid s.span_id = true ∧
    isUuid s.trace_id = true := by
  unfold mkSpan at h
  repeat' split at h
  all_goals simp_all
  obtain ⟨hpu, hsu, htu, hrec⟩ := h
  subst hrec
  simp_all

/-- startChild on a Span with well-formed identifiers, with a well-formed
    freshly minted span id: computes the resulting child Span. -/
theorem startChild_eq (s : Span) (op f g : String)
    (hs : isUuid s.span_id = true) (ht : isUuid s.trace_id = true)
    (hf : isUuid f = true) :
    s.startChild (some op) f g
      = some { creator := true, finished := false, operation := op,
               parent_span_id := s.span_id, span_id := f,
               trace_id := s.trace_id, tags := [] } := by
  have hsne : s.span_id ≠ "" := isUuid_ne_empty hs
  have htne : s.trace_id ≠ "" := isUuid_ne_empty ht
  simp [Span.startChild, mkSpan, optionalUuidOk, hs, ht, hf, strTruthy,
    jsOr_some_of_ne hsne, jsOr_some_of_ne htne, jsOr_none]

/-! ### Concrete identifiers and spans for witnesses and counterexamples -/

def uuidA : String := "11111111-2222-3333-4444-555555555555"

def uuidB : String := "aaaaaaaa-bbbb-cccc-dddd-eeeeeeeeeeee"

def uuidC : String := "99999999-8888-7777-6666-555555555555"

def uuidD : String := "12121212-3434-5656-7878-909090909090"

/-- An open root Span, as a creator would hold it. -/
def spanOpen : Span :=
  { creator := true, finished := false, operation := "op",
    parent_span_id := "0", span_id := uuidA, trace_id := uuidB, tags := [] }

/-- The same Span after its terminal log has completed. -/
def spanDone : Span := { spanOpen with finished := true }

/-! ### Claims -/

/-- Claim C1: on an unfinished Span, log(name, end=true) succeeds, sets
    finished=true unconditionally, and puts end=true on the emitted record
    iff the Span is the creator; a joined (non-creator) Span's terminal
    record omits the end field entirely. -/
theorem claim_C1_terminal_log (s : Span) (name : String)
    (h : s.finished = false) :
    ∃ s' e, s.log name true = some (s', e) ∧ s'.finished = true ∧
      (e.endField = some true ↔ s.creator = true) ∧
      (s.creator = false → e.endField = none) := by
  refine ⟨{ s with finished := true, tags := [] },
    { kind := name, operation := s.operation,
      parent_span_id := s.parent_span_id, span_id := s.span_id,
      trace_id := s.trace_id,
      endField := if s.creator then some true else none,
      tags := s.tags }, ?_, rfl, ?_, ?_⟩
  · unfold Span.log
    rw [h]
    rfl
  · cases hc : s.creator <;> simp [hc]
  · intro hc
    simp [hc]

/-- Witness for C1 at a concrete unfinished creator Span. -/
theorem claim_C1_witness :
    spanOpen.finished = false ∧
    (∃ s' e, spanOpen.log "server.response" true = some (s', e) ∧
      s'.finished = true ∧
      (e.endField = some true ↔ spanOpen.creator = true) ∧
      (spanOpen.creator = false → e.endField = none)) :=
  ⟨rfl, claim_C1_terminal_log spanOpen "server.response" rfl⟩

/-- Claim C3: any successful log call drains the Span's tag set to empty,
    and the emitted record carries exactly the tags held before the call. -/
theorem claim_C3_tags_drain (s : Span) (name : String) (endArg : Bool)
    (h : s.finished = false) :
    ∃ s' e, s.log name endArg = some (s', e) ∧ s'.tags = [] ∧
      e.tags = s.tags := by
  refine ⟨{ s with finished := (if endArg then true else s.finished),
                   tags := [] },
    { kind := name, operation := s.operation,
      parent_span_id := s.parent_span_id, span_id := s.span_id,
      trace_id := s.trace_id,
      endField := (if endArg && s.creator then some true else none),
      tags := s.tags }, ?_, rfl, rfl⟩
  unfold Span.log
  rw [h]
  rfl

/-- Witness for C3 at a concrete Span carrying one tag. -/
theorem claim_C3_witness :
    ({ spanOpen with tags := [("peer.addr", "10.0.0.1")] } : Span).finished
        = false ∧
    (∃ s' e, ({ spanOpen with tags := [("peer.addr", "10.0.0.1")] } : Span).log
          "server.request" false = some (s', e) ∧ s'.tags = [] ∧
      e.tags = ({ spanOpen with
        tags := [("peer.addr", "10.0.0.1")] } : Span).tags) :=
  ⟨rfl, claim_C3_tags_drain
    { spanOpen with tags := [("peer.addr", "10.0.0.1")] }
    "server.request" false rfl⟩

/-- Claim C4: once finished is true, addTags and log always fail; a
    successful addTags never changes finished, and a successful log starts
    from an unfinished Span and sets finished exactly to its end argument,
    so finished transitions at most once, from false to true. -/
theorem claim_C4_finished_blocks (s : Span) (tgs : SMap) (name : String)
    (b : Bool) :
    (s.finished = true → s.addTags tgs = none ∧ s.log name b = none) ∧
    (∀ s', s.addTags tgs = some s' → s'.finished = s.finished) ∧
    (∀ s' e, s.log name b = some (s', e) →
      s.finished = false ∧ s'.finished = b) := by
  refine ⟨?_, ?_, ?_⟩
  · intro h
    exact ⟨by simp [Span.addTags, h], by simp [Span.log, h]⟩
  · intro s' h
    cases hf : s.finished with
    | true => simp [Span.addTags, hf] at h
    | false =>
        simp [Span.addTags, hf] at h
        subst h
        exact hf.symm ▸ rfl
  · intro s' e h
    cases hf : s.finished with
    | true => simp [Span.log, hf] at h
    | false =>
        have hlog : s.log name b
            = some ({ s with finished := (if b then true else s.finished),
                             tags := [] },
              { kind := name, operation := s.operation,
                parent_span_id := s.parent_span_id, span_id := s.span_id,
                trace_id := s.trace_id,
                endField := (if b && s.creator then some true else none),
                tags := s.tags }) := by
          unfold Span.log
          rw [hf]
          rfl
        rw [hlog] at h
        simp only [Option.some.injEq, Prod.mk.injEq] at h
        obtain ⟨h1, -⟩ := h
        refine ⟨rfl, ?_⟩
        rw [← h1]
        cases b <;> simp [hf]

/-- Witness for C4 at a concrete finished Span. -/
theorem claim_C4_witness :
    spanDone.addTags [("k", "v")] = none ∧ spanDone.log "x" false = none :=
  (claim_C4_finished_blocks spanDone [("k", "v")] "x" false).1 rfl

/-- The child Span that startChild creates from the finished spanDone. -/
def childOfDone : Span :=
  { creator := true, finished := false, operation := "child",
    parent_span_id := uuidA, span_id := uuidC, trace_id := uuidB, tags := [] }

/-- Counterexample to claim C5: on a Span whose terminal log has completed,
    startChild and injectHeaders both succeed, because neither operation
    checks finished; CLOSED is not absorbing for them. -/
theorem claim_C5_counterexample :
    spanDone.finished = true ∧
    Span.startChild spanDone (some "child") uuidC uuidD = some childOfDone ∧
    getKey (Span.injectHeaders spanDone []) "x-span-id" = some uuidA := by
  refine ⟨rfl, ?_, ?_⟩ <;> rfl

/-- Claim C5 amended: the CLOSED state blocks only addTags and log;
    injectHeaders and startChild perform no finished check and still succeed
    on a finished Span (startChild needs only well-formed identifiers and a
    well-formed fresh id). -/
theorem claim_C5_amended (s : Span) (tgs hdrs : SMap) (name op f g : String)
    (b : Bool) (h : s.finished = true) :
    s.addTags tgs = none ∧ s.log name b = none ∧
    (isUuid s.span_id = true → isUuid s.trace_id = true →
      isUuid f = true →
      ∃ c, s.startChild (some op) f g = some c ∧ c.finished = false) ∧
    getKey (s.injectHeaders hdrs) "x-span-id" = some s.span_id ∧
    getKey (s.injectHeaders hdrs) "x-parent-span-id"
        = some s.parent_span_id ∧
    getKey (s.injectHeaders hdrs) "x-request-id" = some s.trace_id := by
  refine ⟨by simp [Span.addTags, h], by simp [Span.log, h], ?_, ?_, ?_, ?_⟩
  · intro hs ht hf
    exact ⟨_, startChild_eq s op f g hs ht hf, rfl⟩
  · unfold Span.injectHeaders
    rw [getKey_setKey_ne _ _ (by decide), getKey_setKey_ne _ _ (by decide),
      getKey_setKey_self]
  · unfold Span.injectHeaders
    rw [getKey_setKey_ne _ _ (by decide), getKey_setKey_self]
  · unfold Span.injectHeaders
    rw [getKey_setKey_self]

/-- Witness for the amended C5 at the concrete finished Span. -/
theorem claim_C5_witness :
    spanDone.finished = true ∧
    (spanDone.addTags [] = none ∧ spanDone.log "x" true = none ∧
      (isUuid spanDone.span_id = true → isUuid spanDone.trace_id = true →
        isUuid uuidC = true →
        ∃ c, spanDone.startChild (some "child") uuidC uuidD = some c ∧
          c.finished = false) ∧
      getKey (spanDone.injectHeaders []) "x-span-id"
          = some spanDone.span_id ∧
      getKey (spanDone.injectHeaders []) "x-parent-span-id"
          = some spanDone.parent_span_id ∧
      getKey (spanDone.injectHeaders []) "x-request-id"
          = some spanDone.trace_id) :=
  ⟨rfl, claim_C5_amended spanDone [] [] "x" "child" uuidC uuidD true rfl⟩

/-- The opts clientRequest builds for a missing current span, with a valid
    operation and logger. -/
def optsNewRoot : SpanOpts :=
  { logger := true, operation := some "start", parent_span_id := none,
    span_id := none, trace_id := none }

/-- Claim C9 (code bug): newSpan with a valid operation and logger and no
    externally supplied identifiers fails instead of producing a root Span:
    the constructor re-validates self.parent_span_id under the guard
    opts.parent_span_id !== '0', and with no parent supplied the field has
    defaulted to the sentinel "0", which fails assert.uuid. -/
theorem claim_C9_newSpan_root_fails :
    Tracer.newSpan optsNewRoot uuidA uuidB = none := rfl

/-- Claim C10 (code bug): clientRequest with a null current span fails
    instead of minting a root Span: it calls newSpan with no identifiers,
    which hits the constructor's parent re-validation failure. -/
theorem claim_C10_clientRequest_null_fails :
    Tracer.clientRequest none [] (some "op") true [] uuidA uuidB = none := rfl

/-- A join request supplying the same UUID for span_id and parent_span_id. -/
def optsJoinEq : SpanOpts :=
  { logger := true, operation := some "op", parent_span_id := some uuidA,
    span_id := some uuidA, trace_id := some uuidB }

/-- The Span that optsJoinEq constructs. -/
def spanJoinEq : Span :=
  { creator := false, finished := false, operation := "op",
    parent_span_id := uuidA, span_id := uuidA, trace_id := uuidB, tags := [] }

/-- Counterexample to claim C6: joinSpan accepts an externally supplied
    span_id equal to the supplied parent_span_id, yielding a Span whose
    span_id equals its own parent_span_id. -/
theorem claim_C6_counterexample :
    Tracer.joinSpan optsJoinEq uuidC uuidD = some spanJoinEq ∧
    spanJoinEq.span_id = spanJoinEq.parent_span_id := ⟨rfl, rfl⟩

/-- Claim C6 amended: a constructed Span has span_id distinct from its
    parent_span_id whenever the parent is the sentinel "0", or the span_id
    was freshly minted with a fresh id different from the effective parent;
    a joined Span whose supplied span_id equals the supplied parent_span_id
    violates the inequality. -/
theorem claim_C6_amended (opts : SpanOpts) (f g : String) (s : Span)
    (h : mkSpan opts f g = some s) :
    (s.parent_span_id = "0" → s.span_id ≠ s.parent_span_id) ∧
    (opts.span_id = none → f ≠ jsOr opts.parent_span_id "0" →
      s.span_id ≠ s.parent_span_id) := by
  obtain ⟨-, -, -, -, hp, hsid, -, -, -, -, hu, -⟩ := mkSpan_some_inv h
  constructor
  · intro h0
    rw [h0]
    exact isUuid_ne_zero hu
  · intro hn hne
    rw [hsid, hp, hn, jsOr_none]
    exact hne

/-- A join request with a fresh (unsupplied) span_id under parent uuidA. -/
def optsChildFresh : SpanOpts :=
  { logger := true, operation := some "op", parent_span_id := some uuidA,
    span_id := none, trace_id := some uuidB }

/-- The Span that optsChildFresh constructs with fresh span id uuidC. -/
def spanChildFresh : Span :=
  { creator := true, finished := false, operation := "op",
    parent_span_id := uuidA, span_id := uuidC, trace_id := uuidB, tags := [] }

/-- Witness for the amended C6 at a concrete freshly minted Span. -/
theorem claim_C6_witness :
    mkSpan optsChildFresh uuidC uuidD = some spanChildFresh ∧
    ((spanChildFresh.parent_span_id = "0" →
        spanChildFresh.span_id ≠ spanChildFresh.parent_span_id) ∧
      (optsChildFresh.span_id = none →
        uuidC ≠ jsOr optsChildFresh.parent_span_id "0" →
        spanChildFresh.span_id ≠ spanChildFresh.parent_span_id)) :=
  ⟨rfl, claim_C6_amended optsChildFresh uuidC uuidD spanChildFresh rfl⟩

/-- Claim C8: startChild on a Span with well-formed identifiers and a
    non-empty operation yields a child sharing the trace_id, with
    parent_span_id equal to the parent's span_id, the freshly minted
    span_id (distinct from the parent's), and creator true. The parent
    value itself is untouched: the embedding is functional and startChild
    only allocates. -/
theorem claim_C8_startChild (p : Span) (op f g : String) (_hop : op ≠ "")
    (hs : isUuid p.span_id = true) (ht : isUuid p.trace_id = true)
    (hf : isUuid f = true) (hne : f ≠ p.span_id) :
    ∃ c, p.startChild (some op) f g = some c ∧
      c.trace_id = p.trace_id ∧ c.parent_span_id = p.span_id ∧
      c.span_id = f ∧ c.span_id ≠ p.span_id ∧ c.creator = true ∧
      c.finished = false :=
  ⟨_, startChild_eq p op f g hs ht hf, rfl, rfl, rfl, hne, rfl, rfl⟩

/-- Witness for C8 at a concrete parent Span. -/
theorem claim_C8_witness :
    ("child" ≠ "" ∧ isUuid spanOpen.span_id = true ∧
      isUuid spanOpen.trace_id = true ∧ isUuid uuidC = true ∧
      uuidC ≠ spanOpen.span_id) ∧
    (∃ c, spanOpen.startChild (some "child") uuidC uuidD = some c ∧
      c.trace_id = spanOpen.trace_id ∧ c.parent_span_id = spanOpen.span_id ∧
      c.span_id = uuidC ∧ c.span_id ≠ spanOpen.span_id ∧ c.creator = true ∧
      c.finished = false) :=
  ⟨⟨by decide, by decide, by decide, by decide, by decide⟩,
    claim_C8_startChild spanOpen "child" uuidC uuidD (by decide) (by decide)
      (by decide) (by decide) (by decide)⟩

/-- A join request with a well-formed trace id and no span id, but with no
    parent_span_id: an input claim C7 says must succeed. -/
def optsJoinNoParent : SpanOpts :=
  { logger := true, operation := some "op", parent_span_id := none,
    span_id := none, trace_id := some uuidA }

/-- Counterexample to claim C7: joinSpan fails on a request with a valid
    logger and operation, a well-formed trace id and an absent span id,
    because it additionally requires parent_span_id to be present. -/
theorem claim_C7_counterexample :
    uuidOkReq optsJoinNoParent.trace_id = true ∧
    optsJoinNoParent.span_id = none ∧
    Tracer.joinSpan optsJoinNoParent uuidB uuidC = none :=
  ⟨by decide, rfl, rfl⟩

/-- Claim C7 amended: with a valid operation and logger and a well-formed
    fresh id, joinSpan succeeds iff the parent_span_id is present and is
    the sentinel '0' or well-formed, the trace id is present and
    well-formed, and the span id is absent or well-formed. -/
theorem claim_C7_amended (opts : SpanOpts) (f g op : String)
    (hlog : opts.logger = true) (hop : opts.operation = some op)
    (hf : isUuid f = true) :
    (∃ s, Tracer.joinSpan opts f g = some s) ↔
      (parentOk opts.parent_span_id = true ∧
        uuidOkReq opts.trace_id = true ∧
        optionalUuidOk opts.span_id = true) := by
  obtain ⟨lg, oper, pid, sid, tid⟩ := opts
  replace hlog : lg = true := hlog
  replace hop : oper = some op := hop
  subst hlog
  subst hop
  dsimp only
  constructor
  · rintro ⟨s, hs⟩
    unfold Tracer.joinSpan at hs
    split at hs
    · exact absurd hs (by simp)
    · split at hs
      · exact absurd hs (by simp)
      · rename_i hg1 hg2
        obtain ⟨-, -, -, -, -, -, -, -, hS, -, -, -⟩ := mkSpan_some_inv hs
        dsimp only at hg1 hg2 hS
        refine ⟨?_, by simpa using hg2, hS⟩
        rcases pid with _ | p
        · simp [bne_none_some_str, uuidOkReq] at hg1
        · rw [parentOk_some]
          by_cases hp0 : p = "0"
          · subst hp0
            simp
          · have hbne : (p != "0") = true := bne_iff_ne.mpr hp0
            simp [bne_some_some_str, uuidOkReq_some, hbne] at hg1
            simp [hg1]
  · rintro ⟨hP, hT, hS⟩
    rcases pid with _ | p
    · rw [parentOk_none] at hP
      exact absurd hP (by simp)
    · rcases tid with _ | t
      · rw [uuidOkReq_none] at hT
        exact absurd hT (by simp)
      · have hp : p = "0" ∨ isUuid p = true := by
          rw [parentOk_some] at hP
          simpa using hP
        have ht : isUuid t = true := hT
        have hsf : isUuid (jsOr sid f) = true := by
          rcases sid with _ | u
          · rw [jsOr_none]
            exact hf
          · have hu : isUuid u = true := hS
            rw [jsOr_some_of_ne (isUuid_ne_empty hu)]
            exact hu
        exact ⟨_, joinSpan_success op p sid t f g hp hS hsf ht⟩

/-- A join request satisfying all the amended C7 conditions. -/
def optsJoinGood : SpanOpts :=
  { logger := true, operation := some "op", parent_span_id := some "0",
    span_id := none, trace_id := some uuidA }

/-- Witness for the amended C7 at a concrete join request. -/
theorem claim_C7_witness :
    (optsJoinGood.logger = true ∧ optsJoinGood.operation = some "op" ∧
      isUuid uuidB = true) ∧
    ((∃ s, Tracer.joinSpan optsJoinGood uuidB uuidC = some s) ↔
      (parentOk optsJoinGood.parent_span_id = true ∧
        uuidOkReq optsJoinGood.trace_id = true ∧
        optionalUuidOk optsJoinGood.span_id = true)) :=
  ⟨⟨rfl, rfl, by decide⟩,
    claim_C7_amended optsJoinGood uuidB uuidC "op" rfl rfl (by decide)⟩

/-- Claim C2: injectHeaders followed by serverRequest with the request
    correlation id equal to the Span's trace_id reconstructs the identity:
    the returned Span has the original trace_id, its span_id and
    parent_span_id are exactly the x-span-id and x-parent-span-id header
    values (the original span_id and parent_span_id), creator is false, and
    any terminal log it emits omits the end field. -/
theorem claim_C2_roundtrip (s : Span) (hdrs tags : SMap) (op f g : String)
    (hwf : SpanWF s) :
    ∃ s2 e, Tracer.serverRequest true (some op)
        { headers := s.injectHeaders hdrs, reqId := s.trace_id } tags f g
          = some (s2, e) ∧
      getKey (s.injectHeaders hdrs) "x-span-id" = some s2.span_id ∧
      getKey (s.injectHeaders hdrs) "x-parent-span-id"
          = some s2.parent_span_id ∧
      s2.trace_id = s.trace_id ∧ s2.span_id = s.span_id ∧
      s2.parent_span_id = s.parent_span_id ∧ s2.creator = false ∧
      s2.finished = false ∧
      (∀ name s3 e3, s2.log name true = some (s3, e3) →
        e3.endField = none) := by
  obtain ⟨hs, ht, hp⟩ := hwf
  have hsne : s.span_id ≠ "" := isUuid_ne_empty hs
  have hpne : s.parent_span_id ≠ "" := by
    rcases hp with hp | hp
    · rw [hp]
      decide
    · exact isUuid_ne_empty hp
  have hsp : getKey (s.injectHeaders hdrs) "x-span-id" = some s.span_id := by
    unfold Span.injectHeaders
    rw [getKey_setKey_ne _ _ (by decide), getKey_setKey_ne _ _ (by decide),
      getKey_setKey_self]
  have hpp : getKey (s.injectHeaders hdrs) "x-parent-span-id"
      = some s.parent_span_id := by
    unfold Span.injectHeaders
    rw [getKey_setKey_ne _ _ (by decide), getKey_setKey_self]
  have hjoin := joinSpan_success op s.parent_span_id (some s.span_id)
      s.trace_id f g hp hs
      (by rw [jsOr_some_of_ne hsne]; exact hs) ht
  rw [jsOr_some_of_ne hsne, strTruthy_some_of_ne hsne] at hjoin
  refine ⟨{ creator := !true, finished := false, operation := op,
            parent_span_id := s.parent_span_id, span_id := s.span_id,
            trace_id := s.trace_id, tags := [] },
    { kind := "server.request", operation := op,
      parent_span_id := s.parent_span_id, span_id := s.span_id,
      trace_id := s.trace_id, endField := none,
      tags := mergeTags [] tags }, ?_, ?_, ?_, rfl, rfl, rfl, rfl, rfl, ?_⟩
  · unfold Tracer.serverRequest
    dsimp only
    rw [hsp, hpp, jsOr_some_of_ne hpne, hjoin]
    rfl
  · exact hsp
  · exact hpp
  · intro name s3 e3 hlog
    have hcomp : Span.log { creator := !true, finished := false,
                            operation := op,
                            parent_span_id := s.parent_span_id,
                            span_id := s.span_id, trace_id := s.trace_id,
                            tags := [] } name true
        = some ({ creator := !true, finished := true, operation := op,
                  parent_span_id := s.parent_span_id, span_id := s.span_id,
                  trace_id := s.trace_id, tags := [] },
            { kind := name, operation := op,
              parent_span_id := s.parent_span_id, span_id := s.span_id,
              trace_id := s.trace_id, endField := none, tags := [] }) := rfl
    rw [hcomp] at hlog
    injection hlog with hpair
    injection hpair with h1 h2
    rw [← h2]

/-- Witness for C2 at a concrete well-formed Span. -/
theorem claim_C2_witness :
    SpanWF spanOpen ∧
    (∃ s2 e, Tracer.serverRequest true (some "srv")
        { headers := spanOpen.injectHeaders [], reqId := spanOpen.trace_id }
        [("k", "v")] uuidC uuidD = some (s2, e) ∧
      getKey (spanOpen.injectHeaders []) "x-span-id" = some s2.span_id ∧
      getKey (spanOpen.injectHeaders []) "x-parent-span-id"
          = some s2.parent_span_id ∧
      s2.trace_id = spanOpen.trace_id ∧ s2.span_id = spanOpen.span_id ∧
      s2.parent_span_id = spanOpen.parent_span_id ∧ s2.creator = false ∧
      s2.finished = false ∧
      (∀ name s3 e3, s2.log name true = some (s3, e3) →
        e3.endField = none)) :=
  ⟨⟨by decide, by decide, Or.inl rfl⟩,
    claim_C2_roundtrip spanOpen [] [("k", "v")] "srv" uuidC uuidD
      ⟨by decide, by decide, Or.inl rfl⟩⟩

end EvtTracer
